import Mathlib

set_option maxRecDepth 100000

/-
Verification of the QFPay demo repository request-signing core.

The definitions below are a shallow embedding of the JavaScript/TypeScript
source:
  - generateQFPaySignature, createCustomer, createPaymentIntent
    (server actions file),
  - the product-create route POST handler,
  - the subscription-create route POST handler.

Machine integers are modelled as Nat with explicit reduction modulo 2^32,
strings as Lean String (Char lists of Unicode code points; all data relevant
to the claims is ASCII, where JS UTF-16 units, Unicode code points and UTF-8
bytes coincide).  The Node crypto MD5 and SHA-256 digests are implemented
in full below and validated against standard test vectors.
-/

/- ## Byte-level utilities -/

/-- 2^32, the word modulus for both hash functions. -/
def two32 : Nat := 4294967296

/-- 32-bit modular addition. -/
def add32 (a b : Nat) : Nat := (a + b) % two32

/-- 32-bit complement (xor with all-ones). -/
def not32 (a : Nat) : Nat := Nat.xor a 4294967295

/-- 32-bit left rotation. -/
def rotl32 (x s : Nat) : Nat := ((x <<< s) % two32) ||| (x >>> (32 - s))

/-- 32-bit right rotation. -/
def rotr32 (x s : Nat) : Nat := (x >>> s) ||| ((x <<< (32 - s)) % two32)

/-- UTF-8 encoding of one code point, as Node crypto hash update applies to
JS strings. -/
def utf8Char (c : Char) : List Nat :=
  let n := c.toNat
  if n < 128 then [n]
  else if n < 2048 then [192 + n / 64, 128 + n % 64]
  else if n < 65536 then [224 + n / 4096, 128 + n / 64 % 64, 128 + n % 64]
  else [240 + n / 262144, 128 + n / 4096 % 64, 128 + n / 64 % 64, 128 + n % 64]

/-- UTF-8 bytes of a string. -/
def utf8Bytes (s : String) : List Nat := (s.data.map utf8Char).flatten

/-- Lowercase hex digit for a nibble (reduced mod 16 for totality). -/
def hexDigitChar (n : Nat) : Char :=
  if n % 16 < 10 then Char.ofNat (48 + n % 16) else Char.ofNat (87 + n % 16)

/-- Two lowercase hex chars of one byte. -/
def byteHexChars (b : Nat) : List Char := [hexDigitChar (b / 16), hexDigitChar b]

/-- Lowercase hex string of a byte list, as Node digest of hex. -/
def hexOfBytes (bs : List Nat) : String := ⟨(bs.map byteHexChars).flatten⟩

/-- Little-endian 4-byte serialization of a 32-bit word. -/
def le32Bytes (w : Nat) : List Nat :=
  [w % 256, w / 256 % 256, w / 65536 % 256, w / 16777216 % 256]

/-- Big-endian 4-byte serialization of a 32-bit word. -/
def be32Bytes (w : Nat) : List Nat :=
  [w / 16777216 % 256, w / 65536 % 256, w / 256 % 256, w % 256]

/-- Little-endian 8-byte serialization (MD5 length field). -/
def le64Bytes (n : Nat) : List Nat :=
  [n % 256, n / 256 % 256, n / 65536 % 256, n / 16777216 % 256,
   n / 4294967296 % 256, n / 1099511627776 % 256,
   n / 281474976710656 % 256, n / 72057594037927936 % 256]

/-- Big-endian 8-byte serialization (SHA-256 length field). -/
def be64Bytes (n : Nat) : List Nat :=
  [n / 72057594037927936 % 256, n / 281474976710656 % 256,
   n / 1099511627776 % 256, n / 4294967296 % 256,
   n / 16777216 % 256, n / 65536 % 256, n / 256 % 256, n % 256]

/-- Group a word list into blocks of 16 words; the fuel argument (any bound
of at least the list length) keeps the recursion structural so that the
kernel can evaluate it. -/
def chunk16 : Nat → List Nat → List (List Nat)
  | 0, _ => []
  | _ + 1, [] => []
  | fuel + 1, ws => ws.take 16 :: chunk16 fuel (ws.drop 16)

/-- Little-endian bytes to 32-bit words (MD5 message layout). -/
def bytesToWordsLE : List Nat → List Nat
  | b0 :: b1 :: b2 :: b3 :: rest =>
      (b0 + 256 * b1 + 65536 * b2 + 16777216 * b3) % two32 :: bytesToWordsLE rest
  | _ => []

/-- Big-endian bytes to 32-bit words (SHA-256 message layout). -/
def bytesToWordsBE : List Nat → List Nat
  | b0 :: b1 :: b2 :: b3 :: rest =>
      (16777216 * b0 + 65536 * b1 + 256 * b2 + b3) % two32 :: bytesToWordsBE rest
  | _ => []

/- ## MD5 (RFC 1321), as computed by Node crypto createHash of md5 -/

/-- MD5 per-round left-rotation amounts. -/
def md5S : List Nat :=
  [7, 12, 17, 22, 7, 12, 17, 22, 7, 12, 17, 22, 7, 12, 17, 22,
   5, 9, 14, 20, 5, 9, 14, 20, 5, 9, 14, 20, 5, 9, 14, 20,
   4, 11, 16, 23, 4, 11, 16, 23, 4, 11, 16, 23, 4, 11, 16, 23,
   6, 10, 15, 21, 6, 10, 15, 21, 6, 10, 15, 21, 6, 10, 15, 21]

/-- MD5 sine-derived additive constants. -/
def md5K : List Nat :=
  [3614090360, 3905402710, 606105819, 3250441966, 4118548399, 1200080426, 2821735955, 4249261313,
   1770035416, 2336552879, 4294925233, 2304563134, 1804603682, 4254626195, 2792965006, 1236535329,
   4129170786, 3225465664, 643717713, 3921069994, 3593408605, 38016083, 3634488961, 3889429448,
   568446438, 3275163606, 4107603335, 1163531501, 2850285829, 4243563512, 1735328473, 2368359562,
   4294588738, 2272392833, 1839030562, 4259657740, 2763975236, 1272893353, 4139469664, 3200236656,
   681279174, 3936430074, 3572445317, 76029189, 3654602809, 3873151461, 530742520, 3299628645,
   4096336452, 1126891415, 2878612391, 4237533241, 1700485571, 2399980690, 4293915773, 2240044497,
   1873313359, 4264355552, 2734768916, 1309151649, 4149444226, 3174756917, 718787259, 3951481745]

/-- MD5 running state. -/
structure MD5State where
  a : Nat
  b : Nat
  c : Nat
  d : Nat

/-- MD5 initial state. -/
def md5Init : MD5State := ⟨1732584193, 4023233417, 2562383102, 271733878⟩

/-- MD5 nonlinear round function selected by round index. -/
def md5F (i b c d : Nat) : Nat :=
  if i < 16 then (b &&& c) ||| (not32 b &&& d)
  else if i < 32 then (d &&& b) ||| (not32 d &&& c)
  else if i < 48 then Nat.xor b (Nat.xor c d)
  else Nat.xor c (b ||| not32 d)

/-- MD5 message-word index for a round. -/
def md5G (i : Nat) : Nat :=
  if i < 16 then i
  else if i < 32 then (5 * i + 1) % 16
  else if i < 48 then (3 * i + 5) % 16
  else (7 * i) % 16

/-- One MD5 round over message block m. -/
def md5Round (m : List Nat) (st : MD5State) (i : Nat) : MD5State :=
  let f := add32 (add32 (add32 st.a (md5F i st.b st.c st.d)) (md5K.getD i 0)) (m.getD (md5G i) 0)
  { a := st.d, b := add32 st.b (rotl32 f (md5S.getD i 0)), c := st.b, d := st.c }

/-- MD5 compression of one 16-word block. -/
def md5Block (st : MD5State) (m : List Nat) : MD5State :=
  let r := (List.range 64).foldl (md5Round m) st
  { a := add32 st.a r.a, b := add32 st.b r.b, c := add32 st.c r.c, d := add32 st.d r.d }

/-- MD5 padding: 0x80, zeros to 56 mod 64, 8-byte little-endian bit length. -/
def md5Pad (msg : List Nat) : List Nat :=
  msg ++ [128] ++ List.replicate ((119 - msg.length % 64) % 64) 0
      ++ le64Bytes ((8 * msg.length) % 18446744073709551616)

/-- Full MD5 of a byte list, producing the 16 digest bytes. -/
def md5Bytes (msg : List Nat) : List Nat :=
  let ws := bytesToWordsLE (md5Pad msg)
  let st := (chunk16 ws.length ws).foldl md5Block md5Init
  le32Bytes st.a ++ le32Bytes st.b ++ le32Bytes st.c ++ le32Bytes st.d

/-- MD5 lowercase hex digest of the UTF-8 bytes of a string, as
crypto createHash md5 update digest hex. -/
def md5Hex (s : String) : String := hexOfBytes (md5Bytes (utf8Bytes s))

/- ## SHA-256 (FIPS 180-4), as computed by Node crypto createHash of sha256 -/

/-- SHA-256 round constants. -/
def sha256K : List Nat :=
  [1116352408, 1899447441, 3049323471, 3921009573, 961987163, 1508970993, 2453635748, 2870763221,
   3624381080, 310598401, 607225278, 1426881987, 1925078388, 2162078206, 2614888103, 3248222580,
   3835390401, 4022224774, 264347078, 604807628, 770255983, 1249150122, 1555081692, 1996064986,
   2554220882, 2821834349, 2952996808, 3210313671, 3336571891, 3584528711, 113926993, 338241895,
   666307205, 773529912, 1294757372, 1396182291, 1695183700, 1986661051, 2177026350, 2456956037,
   2730485921, 2820302411, 3259730800, 3345764771, 3516065817, 3600352804, 4094571909, 275423344,
   430227734, 506948616, 659060556, 883997877, 958139571, 1322822218, 1537002063, 1747873779,
   1955562222, 2024104815, 2227730452, 2361852424, 2428436474, 2756734187, 3204031479, 3329325298]

/-- SHA-256 running state. -/
structure SHA256State where
  h0 : Nat
  h1 : Nat
  h2 : Nat
  h3 : Nat
  h4 : Nat
  h5 : Nat
  h6 : Nat
  h7 : Nat

/-- SHA-256 initial state. -/
def sha256Init : SHA256State :=
  ⟨1779033703, 3144134277, 1013904242, 2773480762, 1359893119, 2600822924, 528734635, 1541459225⟩

/-- SHA-256 small sigma 0 (message schedule). -/
def sha256s0 (x : Nat) : Nat := Nat.xor (rotr32 x 7) (Nat.xor (rotr32 x 18) (x >>> 3))

/-- SHA-256 small sigma 1 (message schedule). -/
def sha256s1 (x : Nat) : Nat := Nat.xor (rotr32 x 17) (Nat.xor (rotr32 x 19) (x >>> 10))

/-- SHA-256 big sigma 0 (compression). -/
def sha256S0 (x : Nat) : Nat := Nat.xor (rotr32 x 2) (Nat.xor (rotr32 x 13) (rotr32 x 22))

/-- SHA-256 big sigma 1 (compression). -/
def sha256S1 (x : Nat) : Nat := Nat.xor (rotr32 x 6) (Nat.xor (rotr32 x 11) (rotr32 x 25))

/-- Extend a 16-word block to the 64-word message schedule. -/
def sha256Extend (w : List Nat) : List Nat :=
  (List.range 48).foldl
    (fun acc j =>
      acc ++ [add32 (add32 (sha256s1 (acc.getD (j + 14) 0)) (acc.getD (j + 9) 0))
                    (add32 (sha256s0 (acc.getD (j + 1) 0)) (acc.getD j 0))])
    w

/-- One SHA-256 compression round. -/
def sha256Round (w : List Nat) (st : SHA256State) (i : Nat) : SHA256State :=
  let ch := Nat.xor (st.h4 &&& st.h5) (not32 st.h4 &&& st.h6)
  let t1 := add32 (add32 (add32 st.h7 (sha256S1 st.h4)) (add32 ch (sha256K.getD i 0))) (w.getD i 0)
  let maj := Nat.xor (st.h0 &&& st.h1) (Nat.xor (st.h0 &&& st.h2) (st.h1 &&& st.h2))
  let t2 := add32 (sha256S0 st.h0) maj
  { h0 := add32 t1 t2, h1 := st.h0, h2 := st.h1, h3 := st.h2,
    h4 := add32 st.h3 t1, h5 := st.h4, h6 := st.h5, h7 := st.h6 }

/-- SHA-256 compression of one 16-word block. -/
def sha256Block (st : SHA256State) (m : List Nat) : SHA256State :=
  let w := sha256Extend m
  let r := (List.range 64).foldl (sha256Round w) st
  { h0 := add32 st.h0 r.h0, h1 := add32 st.h1 r.h1, h2 := add32 st.h2 r.h2,
    h3 := add32 st.h3 r.h3, h4 := add32 st.h4 r.h4, h5 := add32 st.h5 r.h5,
    h6 := add32 st.h6 r.h6, h7 := add32 st.h7 r.h7 }

/-- SHA-256 padding: 0x80, zeros to 56 mod 64, 8-byte big-endian bit length. -/
def sha256Pad (msg : List Nat) : List Nat :=
  msg ++ [128] ++ List.replicate ((119 - msg.length % 64) % 64) 0
      ++ be64Bytes ((8 * msg.length) % 18446744073709551616)

/-- Full SHA-256 of a byte list, producing the 32 digest bytes. -/
def sha256Bytes (msg : List Nat) : List Nat :=
  let ws := bytesToWordsBE (sha256Pad msg)
  let st := (chunk16 ws.length ws).foldl sha256Block sha256Init
  be32Bytes st.h0 ++ be32Bytes st.h1 ++ be32Bytes st.h2 ++ be32Bytes st.h3
    ++ be32Bytes st.h4 ++ be32Bytes st.h5 ++ be32Bytes st.h6 ++ be32Bytes st.h7

/-- SHA-256 lowercase hex digest of the UTF-8 bytes of a string. -/
def sha256Hex (s : String) : String := hexOfBytes (sha256Bytes (utf8Bytes s))

/- Standard test vectors, validating the two digest implementations. -/

example : md5Hex "" = "d41d8cd98f00b204e9800998ecf8427e" := by decide
example : md5Hex "abc" = "900150983cd24fb0d6963f7d28e17f72" := by decide
example : sha256Hex "abc" =
    "ba7816bf8f01cfea414140de5dae2223b00361a396177a9cb410ff61f20015ad" := by decide

/- ## JS string order and object key enumeration -/

/-- Lexicographic comparison of code-point lists, as the default comparator
of Array.prototype.sort on strings (UTF-16 unit order, which coincides with
code-point order on the ASCII keys in scope). -/
def charsLt : List Char → List Char → Bool
  | [], [] => false
  | [], _ :: _ => true
  | _ :: _, [] => false
  | a :: as, b :: bs =>
    if a.toNat < b.toNat then true
    else if b.toNat < a.toNat then false
    else charsLt as bs

/-- Strict string order used by Object.keys(params).sort() in
generateQFPaySignature. -/
def strLtb (a b : String) : Bool := charsLt a.data b.data

/-- The non-strict key order induced by strLtb. -/
def keyLe (a b : String) : Prop := strLtb b a = false

instance : DecidableRel keyLe := fun a b => by unfold keyLe; infer_instance

/-- ASCII digit test. -/
def isDigitCh (c : Char) : Bool := Nat.ble 48 c.toNat && Nat.ble c.toNat 57

/-- Decimal value of a digit list. -/
def digitsVal (cs : List Char) : Nat := cs.foldl (fun a c => 10 * a + (c.toNat - 48)) 0

/-- Whether a key is a JS array index: the canonical decimal string of an
integer below 2^32 - 1 (ECMA-262 array index property keys). -/
def isArrayIndex (s : String) : Bool :=
  match s.data with
  | [] => false
  | [c] => isDigitCh c
  | c :: rest =>
      isDigitCh c && !(c == '0') && rest.all isDigitCh
        && Nat.blt (digitsVal (c :: rest)) 4294967295

/-- Numeric order on array-index keys. -/
def idxLe (a b : String) : Prop := digitsVal a.data ≤ digitsVal b.data

instance : DecidableRel idxLe := fun a b => by unfold idxLe; infer_instance

/-- The order in which for-in enumerates the own keys of a plain JS object
whose keys were assigned in the order ks (ECMA-262 OrdinaryOwnPropertyKeys):
array-index keys first in ascending numeric order, then the remaining keys
in assignment order. -/
def canonKeys (ks : List String) : List String :=
  List.insertionSort idxLe (ks.filter isArrayIndex)
    ++ ks.filter (fun k => !isArrayIndex k)

/-- Value of the unique entry of the parameter set under a key, as the
object indexing ordered[key] = params[key] in the source (the default is
unreachable for keys drawn from the parameter set). -/
def lookupValue (params : List (String × String)) (k : String) : String :=
  ((params.find? (fun q => decide (q.1 = k))).map Prod.snd).getD ""

/-- Steps 1-2 of generateQFPaySignature: sort the keys with
Object.keys(params).sort(), assign them into a fresh object in that order,
enumerate that object with for-in, render key=value pairs and join with &.
No URL-encoding or escaping happens here. -/
def canonicalize (params : List (String × String)) : String :=
  String.intercalate "&"
    ((canonKeys (List.insertionSort keyLe (params.map Prod.fst))).map
      (fun k => k ++ "=" ++ lookupValue params k))

/-- Modelled from the spec wording, as the refinement target for the
canonicalization claims: key=value pairs in ascending byte-value key order
joined with &, with no reordering of array-index keys. -/
def specCanonicalize (params : List (String × String)) : String :=
  String.intercalate "&"
    ((List.insertionSort keyLe (params.map Prod.fst)).map
      (fun k => k ++ "=" ++ lookupValue params k))

/- ## The signature server action -/

/-- JS a || b on an optional string: the fallback replaces both a missing
value (undefined/null) and the falsy empty string. -/
def jsOrStr : Option String → String → String
  | some s, d => if s = "" then d else s
  | none, d => d

/-- const secretKey = clientKey || process.env.QFPAY_CLIENT_KEY || "". -/
def resolveSecret (clientKey envClientKey : Option String) : String :=
  jsOrStr clientKey (jsOrStr envClientKey "")

/-- JS String.prototype.toUpperCase restricted to its ASCII behavior, which
is all the source exercises. -/
def asciiUpper (s : String) : String := ⟨s.data.map Char.toUpper⟩

/-- Step 3: signString = paramString + secretKey, concatenation with no
separator. -/
def signStringOf (params : List (String × String)) (secret : String) : String :=
  canonicalize params ++ secret

/-- Step 4: MD5 when algorithm.toUpperCase() === "MD5", otherwise SHA-256
with no validation of the algorithm name. -/
def hashHex (algorithm : String) (s : String) : String :=
  if asciiUpper algorithm = "MD5" then md5Hex s else sha256Hex s

/-- Result shape of generateQFPaySignature. -/
structure SigResult where
  success : Bool
  signature : String
  headers : List (String × String)
deriving DecidableEq

/-- The generateQFPaySignature server action. The landed secret is
clientKey || process.env.QFPAY_CLIENT_KEY || ""; the try/catch wrapper
never fires on this pure computation, so success is always true. -/
def generateQFPaySignature (params : List (String × String)) (appcode algorithm : String)
    (clientKey envClientKey : Option String) : SigResult :=
  let secretKey := resolveSecret clientKey envClientKey
  let signature := hashHex algorithm (signStringOf params secretKey)
  { success := true
    signature := signature
    headers := [("X-QF-APPCODE", appcode),
                ("X-QF-SIGN", signature),
                ("X-QF-SIGNTYPE", asciiUpper algorithm),
                ("Content-Type", "application/x-www-form-urlencoded")] }

example : canonicalize [("b", "2"), ("a", "1")] = "a=1&b=2" := by decide
example : canonicalize [("10", "x"), ("2", "y")] = "2=y&10=x" := by decide
example : specCanonicalize [("10", "x"), ("2", "y")] = "10=x&2=y" := by decide
example : signStringOf [("b", "2"), ("a", "1")] "k" = "a=1&b=2k" := by decide

/- ## Order lemmas for the key sort -/

theorem charsLt_asymm : ∀ a b : List Char, charsLt a b = true → charsLt b a = false := by
  intro a
  induction a with
  | nil =>
    intro b h
    cases b with
    | nil => simp [charsLt] at h
    | cons y ys => simp [charsLt]
  | cons x xs ih =>
    intro b h
    cases b with
    | nil => simp [charsLt] at h
    | cons y ys =>
      simp only [charsLt] at h ⊢
      rcases Nat.lt_trichotomy x.toNat y.toNat with h1 | h1 | h1
      · simp [h1, Nat.lt_asymm h1]
      · simp only [h1, Nat.lt_irrefl, if_false] at h ⊢
        exact ih ys h
      · simp [h1, Nat.lt_asymm h1] at h

theorem charsLt_connex : ∀ a b : List Char, charsLt a b = false → charsLt b a = false → a = b := by
  intro a
  induction a with
  | nil =>
    intro b h _
    cases b with
    | nil => rfl
    | cons y ys => simp [charsLt] at h
  | cons x xs ih =>
    intro b h h2
    cases b with
    | nil => simp [charsLt] at h2
    | cons y ys =>
      simp only [charsLt] at h h2
      rcases Nat.lt_trichotomy x.toNat y.toNat with h1 | h1 | h1
      · simp [h1] at h
      · have hxy : x = y := Char.ext (UInt32.toNat.inj h1)
        subst hxy
        simp only [Nat.lt_irrefl, if_false] at h h2
        rw [ih ys h h2]
      · simp [h1] at h2

theorem charsLt_trans :
    ∀ a b c : List Char, charsLt a b = true → charsLt b c = true → charsLt a c = true := by
  intro a
  induction a with
  | nil =>
    intro b c hab hbc
    cases b with
    | nil => simp [charsLt] at hab
    | cons y ys =>
      cases c with
      | nil => simp [charsLt] at hbc
      | cons z zs => simp [charsLt]
  | cons x xs ih =>
    intro b c hab hbc
    cases b with
    | nil => simp [charsLt] at hab
    | cons y ys =>
      cases c with
      | nil => simp [charsLt] at hbc
      | cons z zs =>
        simp only [charsLt] at hab hbc ⊢
        have Hab : x.toNat < y.toNat ∨ (x.toNat = y.toNat ∧ charsLt xs ys = true) := by
          split_ifs at hab with h1 h2
          · exact Or.inl h1
          · exact Or.inr ⟨by omega, hab⟩
        have Hbc : y.toNat < z.toNat ∨ (y.toNat = z.toNat ∧ charsLt ys zs = true) := by
          split_ifs at hbc with h1 h2
          · exact Or.inl h1
          · exact Or.inr ⟨by omega, hbc⟩
        rcases Hab with h1 | ⟨h1, hab2⟩ <;> rcases Hbc with h2 | ⟨h2, hbc2⟩
        · have hx : x.toNat < z.toNat := by omega
          simp [hx]
        · have hx : x.toNat < z.toNat := by omega
          simp [hx]
        · have hx : x.toNat < z.toNat := by omega
          simp [hx]
        · have hx1 : ¬ x.toNat < z.toNat := by omega
          have hx2 : ¬ z.toNat < x.toNat := by omega
          simp only [hx1, hx2, if_false]
          exact ih ys zs hab2 hbc2

instance : IsTotal String keyLe := by
  constructor
  intro a b
  cases h : charsLt b.data a.data with
  | false => exact Or.inl h
  | true => exact Or.inr (charsLt_asymm _ _ h)

instance : IsTrans String keyLe := by
  constructor
  intro a b c hab hbc
  have hab2 : charsLt b.data a.data = false := hab
  have hbc2 : charsLt c.data b.data = false := hbc
  show charsLt c.data a.data = false
  cases hca : charsLt c.data a.data with
  | false => rfl
  | true =>
    exfalso
    cases hbcx : charsLt b.data c.data with
    | true =>
      have hba : charsLt b.data a.data = true := charsLt_trans _ _ _ hbcx hca
      rw [hba] at hab2
      exact Bool.noConfusion hab2
    | false =>
      have hbceq : b.data = c.data := charsLt_connex _ _ hbcx hbc2
      rw [← hbceq] at hca
      rw [hca] at hab2
      exact Bool.noConfusion hab2

theorem stringDataInj : ∀ a b : String, a.data = b.data → a = b := by
  intro a b h
  cases a
  cases b
  simp_all

instance : IsAntisymm String keyLe := by
  constructor
  intro a b hab hba
  exact stringDataInj _ _ (charsLt_connex _ _ hba hab)

/- ## Lookup and sorting lemmas -/

theorem findKey_eq (P : List (String × String)) (k v : String)
    (nd : (P.map Prod.fst).Nodup) (hmem : (k, v) ∈ P) :
    P.find? (fun q => decide (q.1 = k)) = some (k, v) := by
  induction P with
  | nil => cases hmem
  | cons hd tl ih =>
    obtain ⟨k1, v1⟩ := hd
    simp only [List.map_cons, List.nodup_cons] at nd
    rcases List.mem_cons.mp hmem with heq | htl
    · obtain ⟨hk, hv⟩ := Prod.mk.injEq .. ▸ heq
      subst hk
      subst hv
      simp [List.find?_cons_of_pos]
    · have hk1 : k1 ≠ k := by
        intro hcontra
        subst hcontra
        exact nd.1 (List.mem_map_of_mem Prod.fst htl)
      rw [List.find?_cons_of_neg _ (by simpa using hk1)]
      exact ih nd.2 htl

theorem findKey_none (P : List (String × String)) (k : String)
    (h : ∀ q ∈ P, q.1 ≠ k) :
    P.find? (fun q => decide (q.1 = k)) = none := by
  rw [List.find?_eq_none]
  intro q hq
  simpa using h q hq

theorem lookupValue_perm (P₁ P₂ : List (String × String)) (h : P₁.Perm P₂)
    (nd : (P₁.map Prod.fst).Nodup) (k : String) :
    lookupValue P₁ k = lookupValue P₂ k := by
  unfold lookupValue
  cases hf : P₁.find? (fun q => decide (q.1 = k)) with
  | some q =>
    obtain ⟨q1, q2⟩ := q
    have hq1 : q1 = k := by simpa using List.find?_some hf
    subst hq1
    have hmem₂ : (q1, q2) ∈ P₂ := h.mem_iff.mp (List.mem_of_find?_eq_some hf)
    have nd₂ : (P₂.map Prod.fst).Nodup := ((h.map Prod.fst).nodup_iff).mp nd
    rw [findKey_eq P₂ q1 q2 nd₂ hmem₂]
  | none =>
    have hnone : ∀ q ∈ P₁, q.1 ≠ k := by
      intro q hq
      have := List.find?_eq_none.mp hf q hq
      simpa using this
    rw [findKey_none P₂ k (fun q hq => hnone q (h.mem_iff.mpr hq))]

theorem sortKeys_perm_eq (ks₁ ks₂ : List String) (h : ks₁.Perm ks₂) :
    List.insertionSort keyLe ks₁ = List.insertionSort keyLe ks₂ :=
  List.eq_of_perm_of_sorted
    ((List.perm_insertionSort keyLe ks₁).trans
      (h.trans (List.perm_insertionSort keyLe ks₂).symm))
    (List.sorted_insertionSort keyLe ks₁) (List.sorted_insertionSort keyLe ks₂)

theorem canonKeys_of_no_index (ks : List String)
    (h : ∀ k ∈ ks, isArrayIndex k = false) : canonKeys ks = ks := by
  unfold canonKeys
  have h1 : ks.filter isArrayIndex = [] := by
    rw [List.filter_eq_nil_iff]
    intro k hk
    simp [h k hk]
  have h2 : ks.filter (fun k => !isArrayIndex k) = ks := by
    rw [List.filter_eq_self]
    intro k hk
    simp [h k hk]
  rw [h1, h2]
  rfl

/- ## Claim C1 -/

/-- C1 counterexample: the claim asserts that for ASCII-keyed parameter
sets the canonical string renders the pairs in ascending byte key order.
For the ASCII keys "10" and "2" the byte order puts "10" first
(strLtb "10" "2" = true, so the claimed output is "10=x&2=y"), but the
source enumerates the sorted object with for-in, which moves JS
array-index keys to the front in numeric order, producing "2=y&10=x". -/
theorem C1_byte_order_counterexample :
    strLtb "10" "2" = true
    ∧ specCanonicalize [("10", "x"), ("2", "y")] = "10=x&2=y"
    ∧ canonicalize [("10", "x"), ("2", "y")] = "2=y&10=x"
    ∧ canonicalize [("10", "x"), ("2", "y")] ≠ "10=x&2=y" :=
  ⟨by decide, by decide, by decide, by decide⟩

/-- C1 (amended): for every parameter set with distinct keys the canonical
string of generateQFPaySignature is deterministic and independent of the
insertion order of the keys; and whenever no key is a JS array-index string
(in particular for all the alphabetic gateway field names), it equals the
key=value pairs rendered in ascending byte key order joined with &, with no
URL-encoding or escaping of & or = inside values at this stage. Array-index
keys are instead enumerated first, in ascending numeric order. -/
theorem C1_canonicalize_order (P₁ P₂ : List (String × String)) :
    ((P₁.map Prod.fst).Nodup → P₁.Perm P₂ → canonicalize P₁ = canonicalize P₂)
    ∧ ((∀ k ∈ P₁.map Prod.fst, isArrayIndex k = false) →
        canonicalize P₁ = specCanonicalize P₁) := by
  constructor
  · intro nd h
    unfold canonicalize
    rw [sortKeys_perm_eq _ _ (h.map Prod.fst)]
    congr 1
    apply List.map_congr_left
    intro k _
    rw [lookupValue_perm P₁ P₂ h nd k]
  · intro hni
    unfold canonicalize specCanonicalize
    rw [canonKeys_of_no_index]
    intro k hk
    exact hni k ((List.perm_insertionSort keyLe _).mem_iff.mp hk)

/-- Witness for C1: concrete evaluation at the spec fixture parameter set
and one of its permutations. -/
theorem C1_canonicalize_order_witness :
    ([("b", "2"), ("a", "1")].map (Prod.fst (α := String) (β := String))).Nodup
    ∧ List.Perm [("b", "2"), ("a", "1")] [("a", "1"), ("b", "2")]
    ∧ (∀ k ∈ [("b", "2"), ("a", "1")].map (Prod.fst (α := String) (β := String)),
        isArrayIndex k = false)
    ∧ canonicalize [("b", "2"), ("a", "1")] = canonicalize [("a", "1"), ("b", "2")]
    ∧ canonicalize [("b", "2"), ("a", "1")] = specCanonicalize [("b", "2"), ("a", "1")] := by
  have nd : ([("b", "2"), ("a", "1")].map (Prod.fst (α := String) (β := String))).Nodup := by
    decide
  have hperm : List.Perm [("b", "2"), ("a", "1")] [("a", "1"), ("b", "2")] :=
    List.Perm.swap _ _ _
  have hni : ∀ k ∈ [("b", "2"), ("a", "1")].map (Prod.fst (α := String) (β := String)),
      isArrayIndex k = false := by decide
  exact ⟨nd, hperm, hni,
    (C1_canonicalize_order _ _).1 nd hperm,
    (C1_canonicalize_order [("b", "2"), ("a", "1")] []).2 hni⟩

/- ## Timestamps: new Date().toISOString().replace(/T/, " ").replace(/\..+/, "") -/

/-- UTC clock reading, as the components a JS Date exposes through
toISOString. A real Date always satisfies month in 1..12, day in 1..31,
hour below 24, minute and second below 60, ms below 1000 and (for the
unexpanded ISO format) year below 10000; the fixed-width digit extraction
below coincides with toISOString exactly on that range. -/
structure DateTimeUTC where
  year : Nat
  month : Nat
  day : Nat
  hour : Nat
  minute : Nat
  second : Nat
  ms : Nat

/-- Decimal digit character. -/
def digitChar (n : Nat) : Char := Char.ofNat (48 + n % 10)

/-- Two-digit zero-padded field of toISOString. -/
def pad2c (n : Nat) : List Char := [digitChar (n / 10), digitChar n]

/-- Three-digit zero-padded field of toISOString. -/
def pad3c (n : Nat) : List Char := [digitChar (n / 100), digitChar (n / 10), digitChar n]

/-- Four-digit zero-padded field of toISOString. -/
def pad4c (n : Nat) : List Char :=
  [digitChar (n / 1000), digitChar (n / 100), digitChar (n / 10), digitChar n]

/-- JS Number.prototype.toString on a nonnegative integer: recursion on
the quotient by 10, with fuel at least the digit count (n + 1 suffices). -/
def natStrAux : Nat → Nat → List Char
  | 0, _ => []
  | fuel + 1, n => if n < 10 then [digitChar n] else natStrAux fuel (n / 10) ++ [digitChar n]

/-- Decimal string of a nonnegative integer, as amount.toString(). -/
def natStr (n : Nat) : String := ⟨natStrAux (n + 1) n⟩

/-- The characters of new Date().toISOString():
YYYY-MM-DDTHH:MM:SS.mmmZ. -/
def isoChars (d : DateTimeUTC) : List Char :=
  pad4c d.year ++ '-' :: pad2c d.month ++ '-' :: pad2c d.day
    ++ 'T' :: pad2c d.hour ++ ':' :: pad2c d.minute ++ ':' :: pad2c d.second
    ++ '.' :: pad3c d.ms ++ ['Z']

/-- JS String.prototype.replace with a plain one-character pattern: replace
the first occurrence only. -/
def replaceFirstChar : List Char → Char → Char → List Char
  | [], _, _ => []
  | c :: cs, t, r => if c = t then r :: cs else c :: replaceFirstChar cs t r

/-- JS replace(/\..+/, "") on a string whose first dot is not its last
character (as in every ISO timestamp, where the dot is followed by the
milliseconds and Z): everything from the first dot on is removed. -/
def dropFromDot (cs : List Char) : List Char := cs.takeWhile (fun c => c != '.')

/-- The QFPay timestamp of createPaymentIntent:
new Date().toISOString().replace(/T/, " ").replace(/\..+/, ""). -/
def qfTimestamp (d : DateTimeUTC) : String :=
  ⟨dropFromDot (replaceFirstChar (isoChars d) 'T' ' ')⟩

/-- The shape the spec requires for txdtm: "YYYY-MM-DD HH:MM:SS", UTC, zero
fractional seconds, a space as the separator. -/
def specTimestamp (d : DateTimeUTC) : String :=
  ⟨pad4c d.year ++ '-' :: pad2c d.month ++ '-' :: pad2c d.day
    ++ ' ' :: pad2c d.hour ++ ':' :: pad2c d.minute ++ ':' :: pad2c d.second⟩

/- ## createPaymentIntent parameter assembly -/

/-- The ParameterSet createPaymentIntent signs and posts: txamt, txcurrcd,
the fixed pay_type 802801, the generated out_trade_no, txdtm; customer_id
and intent_expiry are appended only when the caller passed a truthy string
with nonempty trim. The generated trade number and the clock reading are
inputs here because the source draws them from Date.now and Math.random. -/
def createPaymentIntentParams (amount : Nat) (currency : String)
    (customerId tokenExpiry : Option String) (outTradeNo : String)
    (now : DateTimeUTC) : List (String × String) :=
  let base := [("txamt", natStr amount), ("txcurrcd", currency), ("pay_type", "802801"),
               ("out_trade_no", outTradeNo), ("txdtm", qfTimestamp now)]
  let withCustomer :=
    match customerId with
    | some c => if c ≠ "" ∧ c.trim ≠ "" then base ++ [("customer_id", c.trim)] else base
    | none => base
  match tokenExpiry with
  | some e => if e ≠ "" ∧ e.trim ≠ "" then withCustomer ++ [("intent_expiry", e.trim)]
              else withCustomer
  | none => withCustomer

/- ## createCustomer parameter assembly -/

/-- Caller-supplied customer data; a missing field models an absent JS
object property (undefined). -/
structure CustomerData where
  name : Option String
  phone : Option String
  email : Option String

/-- The ParameterSet createCustomer signs and posts:
name || "Demo Customer", phone || "", email || "demo@example.com". -/
def createCustomerParams (d : CustomerData) : List (String × String) :=
  [("name", jsOrStr d.name "Demo Customer"),
   ("phone", jsOrStr d.phone ""),
   ("email", jsOrStr d.email "demo@example.com")]

/- ## Response mapping of createPaymentIntent -/

/-- The gateway response fields createPaymentIntent reads from the parsed
JSON body. -/
structure GatewayBody where
  respcd : String
  respmsg : Option String
  payment_intent : Option String
  out_trade_no : Option String
  txamt : Option String
  txcurrcd : Option String
  sysdtm : Option String
  intent_expiry : Option String

/-- The normalized payment intent built on the success path. -/
structure PaymentIntentResult where
  payment_intent_id : Option String
  out_trade_no : Option String
  txamt : Option String
  currency : String
  status : String
  created_at : Option String
  expires_at : Option String
  respcd : String
deriving DecidableEq

/-- Outcome of the response handling in createPaymentIntent: the thrown
transport error for a non-ok HTTP status, the thrown application error for
a gateway respcd other than 0000, or the success mapping. -/
inductive IntentOutcome where
  | transportFailure (status : Nat) (statusText : String)
  | applicationFailure (respcd : String) (respmsg : String)
  | success (intent : PaymentIntentResult)
deriving DecidableEq

/-- Lines 395-418 of the server actions file: response.ok is checked first
(status 200..299), then respcd is compared with "0000", and only then the
normalized result is built. The thrown errors are caught by the wrapper and
returned as failures carrying the shown data. The product, customer, token
and subscription handlers repeat the same pattern. -/
def mapPaymentIntentResponse (status : Nat) (statusText : String) (body : GatewayBody)
    (currency : String) : IntentOutcome :=
  if ¬ (200 ≤ status ∧ status ≤ 299) then
    .transportFailure status statusText
  else if body.respcd ≠ "0000" then
    .applicationFailure body.respcd (jsOrStr body.respmsg "Unknown error")
  else
    .success { payment_intent_id := body.payment_intent
               out_trade_no := body.out_trade_no
               txamt := body.txamt
               currency := jsOrStr body.txcurrcd currency
               status := "requires_payment_method"
               created_at := body.sysdtm
               expires_at := body.intent_expiry
               respcd := body.respcd }

/- ## Parsed JSON values and JS truthiness for the route handlers -/

/-- A parsed JSON value, as request.json() hands to the route handlers.
JSON numbers relevant to the claims are integers. -/
inductive JsValue where
  | null : JsValue
  | bool : Bool → JsValue
  | num : Int → JsValue
  | str : String → JsValue
  | arr : List JsValue → JsValue
  | obj : List (String × JsValue) → JsValue

/-- JS truthiness of a possibly missing value: undefined, null, false, the
number 0 and the empty string are falsy; every array and object is truthy. -/
def truthy : Option JsValue → Bool
  | none => false
  | some .null => false
  | some (.bool b) => b
  | some (.num n) => n != 0
  | some (.str s) => s != ""
  | some (.arr _) => true
  | some (.obj _) => true

/-- Property access on a parsed JSON value. On an object it is the first
binding of the key; on strings, numbers, booleans and arrays the properties
read by the handlers are absent (undefined). Reading a property of null
would instead throw, which the surrounding catch turns into a 500 rejection
(also before any network call); the claims below restrict bad product
entries to objects, where this definition is exact. -/
def jsGetProp : JsValue → String → Option JsValue
  | .obj fields, k => (fields.find? (fun q => decide (q.1 = k))).map Prod.snd
  | _, _ => none

/-- Whether typeof v === "number". -/
def isJsNumber : Option JsValue → Bool
  | some (.num _) => true
  | _ => false

/- ## The product-create route (validation phase) -/

/-- Outcome of a route handler run up to the point of the outbound fetch:
either an early NextResponse.json rejection with its HTTP status and error
string, or the gateway call with the assembled data. -/
inductive RouteStep (α : Type) where
  | reject (status : Nat) (error : String)
  | callGateway (payload : α)
deriving DecidableEq

/-- The validation phase of POST /api/qfpay/product/create: the handler
destructures name, txamt, txcurrcd, appcode from the body and rejects with
a 400 unless all four are truthy; only then does it assemble parameters and
reach the fetch (the payload carries the four raw values). -/
def productCreatePost (name txamt txcurrcd appcode : Option JsValue) :
    RouteStep (Option JsValue × Option JsValue × Option JsValue × Option JsValue) :=
  if ¬ (truthy name && truthy txamt && truthy txcurrcd && truthy appcode) then
    .reject 400 "Missing required fields: name, txamt, txcurrcd, appcode"
  else
    .callGateway (name, txamt, txcurrcd, appcode)

/- ## The subscription-create route (validation phase) -/

/-- The validation phase of POST /api/qfpay/subscription/create: the four
destructured fields must be truthy; products must be a non-empty array; and
every product entry must have a truthy product_id and a number quantity.
Only after all three checks does the handler build the signature parameters
and reach the fetch. -/
def subscriptionCreatePost (customer_id token_id products appcode : Option JsValue) :
    RouteStep (Option JsValue × Option JsValue × Option JsValue × Option JsValue) :=
  if ¬ (truthy customer_id && truthy token_id && truthy products && truthy appcode) then
    .reject 400 "Missing required fields: customer_id, token_id, products, appcode"
  else
    match products with
    | some (.arr elems) =>
      if elems.length = 0 then
        .reject 400 "Products must be a non-empty array"
      else if elems.all (fun p => truthy (jsGetProp p "product_id")
                                   && isJsNumber (jsGetProp p "quantity")) then
        .callGateway (customer_id, token_id, products, appcode)
      else
        .reject 400 "Each product must have product_id (string) and quantity (number)"
    | _ => .reject 400 "Products must be a non-empty array"

/- ## Digest length and hex alphabet lemmas -/

theorem flatten_map_byteHexChars_length :
    ∀ bs : List Nat, ((bs.map byteHexChars).flatten).length = 2 * bs.length := by
  intro bs
  induction bs with
  | nil => rfl
  | cons b tl ih =>
    simp only [List.map_cons, List.flatten_cons, List.length_append, ih,
      byteHexChars, List.length_cons, List.length_cons, List.length_nil]
    omega

theorem hexOfBytes_length (bs : List Nat) : (hexOfBytes bs).length = 2 * bs.length := by
  have h : (hexOfBytes bs).data = (bs.map byteHexChars).flatten := rfl
  have h2 : (hexOfBytes bs).length = (hexOfBytes bs).data.length := rfl
  rw [h2, h, flatten_map_byteHexChars_length]

theorem md5Bytes_length (msg : List Nat) : (md5Bytes msg).length = 16 := by
  unfold md5Bytes
  simp [le32Bytes]

theorem sha256Bytes_length (msg : List Nat) : (sha256Bytes msg).length = 32 := by
  unfold sha256Bytes
  simp [be32Bytes]

/-- Lowercase hex digit alphabet membership for every nibble. -/
theorem hexDigitChar_mem (n : Nat) : hexDigitChar n ∈ ("0123456789abcdef").data := by
  have h16 : n % 16 < 16 := Nat.mod_lt _ (by omega)
  have hall : ∀ m : Nat, m < 16 →
      (if m < 10 then Char.ofNat (48 + m) else Char.ofNat (87 + m))
        ∈ ("0123456789abcdef").data := by decide
  have := hall (n % 16) h16
  unfold hexDigitChar
  exact this

/-- Lowercase-hex-digit test as a Bool predicate. -/
def isLowerHexDigit (c : Char) : Bool :=
  isDigitCh c || (Nat.ble 97 c.toNat && Nat.ble c.toNat 102)

theorem hexOfBytes_lower (bs : List Nat) : (hexOfBytes bs).data.all isLowerHexDigit = true := by
  rw [List.all_eq_true]
  intro c hc
  have hmem : c ∈ ("0123456789abcdef").data := by
    have hdata : (hexOfBytes bs).data = (bs.map byteHexChars).flatten := rfl
    rw [hdata] at hc
    obtain ⟨l, hl, hcl⟩ := List.mem_flatten.mp hc
    obtain ⟨b, _, hb⟩ := List.mem_map.mp hl
    subst hb
    rcases List.mem_cons.mp hcl with h | h
    · exact h ▸ hexDigitChar_mem _
    · rcases List.mem_cons.mp h with h2 | h2
      · exact h2 ▸ hexDigitChar_mem _
      · cases h2
  have hall : ∀ x ∈ ("0123456789abcdef").data, isLowerHexDigit x = true := by decide
  exact hall c hmem

/- ## Claim C2 -/

/-- C2: the signature of generateQFPaySignature is the lowercase hex digest
of the canonical string concatenated with the secret with no separator,
under MD5 when the upper-cased algorithm is MD5 and SHA-256 otherwise; it
is deterministic in (canonical, secret, algorithm) and in particular does
not depend on the appcode; MD5 digests are 32 lowercase hex chars and
SHA-256 digests 64; and for the fixture params b=2, a=1 with secret k under
MD5 the canonical string is a=1&b=2, the hashed preimage is a=1&b=2k, and
the pinned digest value matches the reference MD5. -/
theorem C2_sign_digest :
    (∀ s : String, (md5Hex s).length = 32)
    ∧ (∀ s : String, (sha256Hex s).length = 64)
    ∧ (∀ s : String, (md5Hex s).data.all isLowerHexDigit = true)
    ∧ (∀ s : String, (sha256Hex s).data.all isLowerHexDigit = true)
    ∧ (∀ (params : List (String × String)) (alg : String) (ck ek : Option String)
         (appcode1 appcode2 : String),
        (generateQFPaySignature params appcode1 alg ck ek).signature
          = (generateQFPaySignature params appcode2 alg ck ek).signature)
    ∧ (∀ (params : List (String × String)) (appcode alg : String) (ck ek : Option String),
        (generateQFPaySignature params appcode alg ck ek).signature
          = hashHex alg (canonicalize params ++ resolveSecret ck ek))
    ∧ canonicalize [("b", "2"), ("a", "1")] = "a=1&b=2"
    ∧ signStringOf [("b", "2"), ("a", "1")] "k" = "a=1&b=2k"
    ∧ (∀ (appcode : String) (ek : Option String),
        (generateQFPaySignature [("b", "2"), ("a", "1")] appcode "MD5" (some "k") ek).signature
          = md5Hex "a=1&b=2k")
    ∧ md5Hex "a=1&b=2k" = "af97cb1e07cd9f9f1279e0bae215015d" := by
  refine ⟨?_, ?_, ?_, ?_, fun _ _ _ _ _ _ => rfl, fun _ _ _ _ _ => rfl,
    by decide, by decide, fun _ _ => rfl, by decide⟩
  · intro s
    unfold md5Hex
    rw [hexOfBytes_length, md5Bytes_length]
  · intro s
    unfold sha256Hex
    rw [hexOfBytes_length, sha256Bytes_length]
  · intro s
    exact hexOfBytes_lower _
  · intro s
    exact hexOfBytes_lower _

/- ## Claim C3 -/

/-- C3 counterexample: at a concrete successful signature generation the
four headers are named X-QF-APPCODE, X-QF-SIGN, X-QF-SIGNTYPE and
Content-Type; none of the claimed X-Auth-AppCode, X-Auth-Signature,
X-Auth-SignatureType names occurs. -/
theorem C3_headers_counterexample :
    ((generateQFPaySignature [("a", "1")] "APP" "MD5" (some "k") none).headers.map Prod.fst
      = ["X-QF-APPCODE", "X-QF-SIGN", "X-QF-SIGNTYPE", "Content-Type"])
    ∧ "X-Auth-AppCode" ∉
        (generateQFPaySignature [("a", "1")] "APP" "MD5" (some "k") none).headers.map Prod.fst
    ∧ "X-Auth-Signature" ∉
        (generateQFPaySignature [("a", "1")] "APP" "MD5" (some "k") none).headers.map Prod.fst
    ∧ "X-Auth-SignatureType" ∉
        (generateQFPaySignature [("a", "1")] "APP" "MD5" (some "k") none).headers.map Prod.fst :=
  ⟨by decide, by decide, by decide, by decide⟩

/-- C3 (amended): every successful signature generation attaches exactly
four headers, named X-QF-APPCODE (the caller appcode passed through),
X-QF-SIGN (the derived hex signature), X-QF-SIGNTYPE (the upper-cased
caller algorithm string, which reads MD5 or SHA256 exactly when the caller
passed a casing of one of those two names), and Content-Type. -/
theorem C3_auth_headers (params : List (String × String)) (appcode alg : String)
    (ck ek : Option String) :
    ((generateQFPaySignature params appcode alg ck ek).headers
      = [("X-QF-APPCODE", appcode),
         ("X-QF-SIGN", (generateQFPaySignature params appcode alg ck ek).signature),
         ("X-QF-SIGNTYPE", asciiUpper alg),
         ("Content-Type", "application/x-www-form-urlencoded")])
    ∧ (generateQFPaySignature params appcode alg ck ek).success = true
    ∧ asciiUpper "md5" = "MD5"
    ∧ asciiUpper "sha256" = "SHA256" :=
  ⟨rfl, rfl, by decide, by decide⟩

theorem string_append_empty (s : String) : s ++ "" = s := by
  cases s with
  | mk l =>
    apply stringDataInj
    show l ++ [] = l
    simp

/- ## Claim C7 -/

/-- C7: when the secret resolves to the empty string (no caller-supplied
key and no configured key), generateQFPaySignature still succeeds and the
hashed preimage is the canonical string alone. -/
theorem C7_empty_secret (params : List (String × String)) (appcode alg : String)
    (ck ek : Option String) (h : resolveSecret ck ek = "") :
    (generateQFPaySignature params appcode alg ck ek).success = true
    ∧ (generateQFPaySignature params appcode alg ck ek).signature
        = hashHex alg (canonicalize params) := by
  refine ⟨rfl, ?_⟩
  show hashHex alg (signStringOf params (resolveSecret ck ek)) = _
  unfold signStringOf
  rw [h, string_append_empty]

/-- Witness for C7: with neither a caller key nor an environment key the
secret resolves to "" and the MD5 preimage is just the canonical string. -/
theorem C7_empty_secret_witness :
    resolveSecret none none = ""
    ∧ (generateQFPaySignature [("a", "1")] "APP" "MD5" none none).success = true
    ∧ (generateQFPaySignature [("a", "1")] "APP" "MD5" none none).signature
        = hashHex "MD5" (canonicalize [("a", "1")])
    ∧ hashHex "MD5" (canonicalize [("a", "1")]) = md5Hex "a=1" :=
  ⟨rfl, (C7_empty_secret [("a", "1")] "APP" "MD5" none none rfl).1,
   (C7_empty_secret [("a", "1")] "APP" "MD5" none none rfl).2, by decide⟩

/- ## Claim C9 -/

/-- C9: any algorithm string whose upper-casing is not exactly MD5 routes
to SHA-256 with no validation error: the call still succeeds, the digest is
SHA-256 of the sign string, and the X-QF-SIGNTYPE header carries the
upper-cased caller string verbatim, so it can disagree with the algorithm
actually used. -/
theorem C9_unknown_algorithm (params : List (String × String)) (appcode alg : String)
    (ck ek : Option String) (h : asciiUpper alg ≠ "MD5") :
    (generateQFPaySignature params appcode alg ck ek).success = true
    ∧ (generateQFPaySignature params appcode alg ck ek).signature
        = sha256Hex (signStringOf params (resolveSecret ck ek))
    ∧ ("X-QF-SIGNTYPE", asciiUpper alg)
        ∈ (generateQFPaySignature params appcode alg ck ek).headers := by
  refine ⟨rfl, ?_, ?_⟩
  · show hashHex alg (signStringOf params (resolveSecret ck ek)) = _
    unfold hashHex
    rw [if_neg h]
  · show _ ∈ [("X-QF-APPCODE", appcode), ("X-QF-SIGN", _), ("X-QF-SIGNTYPE", asciiUpper alg),
              ("Content-Type", "application/x-www-form-urlencoded")]
    simp

/-- Witness for C9: the caller string SHA-256 upper-cases to SHA-256, which
is not MD5, so SHA-256 hashing is used while the signature-type header
reads SHA-256 — a value different from the canonical name SHA256. -/
theorem C9_unknown_algorithm_witness :
    asciiUpper "SHA-256" ≠ "MD5"
    ∧ (generateQFPaySignature [("a", "1")] "APP" "SHA-256" (some "k") none).success = true
    ∧ (generateQFPaySignature [("a", "1")] "APP" "SHA-256" (some "k") none).signature
        = sha256Hex (signStringOf [("a", "1")] (resolveSecret (some "k") none))
    ∧ ("X-QF-SIGNTYPE", asciiUpper "SHA-256")
        ∈ (generateQFPaySignature [("a", "1")] "APP" "SHA-256" (some "k") none).headers
    ∧ asciiUpper "SHA-256" ≠ "SHA256"
    ∧ sha256Hex (signStringOf [("a", "1")] (resolveSecret (some "k") none))
        = sha256Hex "a=1k" := by
  have h : asciiUpper "SHA-256" ≠ "MD5" := by decide
  exact ⟨h, (C9_unknown_algorithm [("a", "1")] "APP" "SHA-256" (some "k") none h).1,
    (C9_unknown_algorithm [("a", "1")] "APP" "SHA-256" (some "k") none h).2.1,
    (C9_unknown_algorithm [("a", "1")] "APP" "SHA-256" (some "k") none h).2.2,
    by decide, by decide⟩

/- ## Timestamp format lemmas -/

theorem digitChar_ne_T (n : Nat) : digitChar n ≠ 'T' := by
  have h : n % 10 < 10 := Nat.mod_lt _ (by omega)
  have hall : ∀ m : Nat, m < 10 → Char.ofNat (48 + m) ≠ 'T' := by decide
  exact hall (n % 10) h

theorem digitChar_ne_dot (n : Nat) : digitChar n ≠ '.' := by
  have h : n % 10 < 10 := Nat.mod_lt _ (by omega)
  have hall : ∀ m : Nat, m < 10 → Char.ofNat (48 + m) ≠ '.' := by decide
  exact hall (n % 10) h

theorem digitChar_bne_dot (n : Nat) : (digitChar n != '.') = true :=
  bne_iff_ne.mpr (digitChar_ne_dot n)

theorem T_not_mem_pad4c (n : Nat) : 'T' ∉ pad4c n := by
  intro h
  simp only [pad4c, List.mem_cons, List.not_mem_nil, or_false] at h
  rcases h with h | h | h | h <;> exact digitChar_ne_T _ h.symm

theorem T_not_mem_pad2c (n : Nat) : 'T' ∉ pad2c n := by
  intro h
  simp only [pad2c, List.mem_cons, List.not_mem_nil, or_false] at h
  rcases h with h | h <;> exact digitChar_ne_T _ h.symm

theorem pad4c_bne_dot (n : Nat) : ∀ c ∈ pad4c n, (c != '.') = true := by
  intro c hc
  simp only [pad4c, List.mem_cons, List.not_mem_nil, or_false] at hc
  rcases hc with h | h | h | h <;> (subst h; exact digitChar_bne_dot _)

theorem pad2c_bne_dot (n : Nat) : ∀ c ∈ pad2c n, (c != '.') = true := by
  intro c hc
  simp only [pad2c, List.mem_cons, List.not_mem_nil, or_false] at hc
  rcases hc with h | h <;> (subst h; exact digitChar_bne_dot _)

theorem replaceFirstChar_append_not_mem (l r : List Char) (t rep : Char) (h : t ∉ l) :
    replaceFirstChar (l ++ r) t rep = l ++ replaceFirstChar r t rep := by
  induction l with
  | nil => rfl
  | cons c cs ih =>
    have hct : ¬ c = t := fun hh => h (hh ▸ List.mem_cons_self c cs)
    have ih2 := ih (fun hm => h (List.mem_cons_of_mem _ hm))
    simp [replaceFirstChar, hct, ih2]

theorem replaceFirstChar_cons_ne (c : Char) (r : List Char) (t rep : Char) (h : ¬ c = t) :
    replaceFirstChar (c :: r) t rep = c :: replaceFirstChar r t rep := by
  simp [replaceFirstChar, h]

theorem replaceFirstChar_cons_self (r : List Char) (t rep : Char) :
    replaceFirstChar (t :: r) t rep = rep :: r := by
  simp [replaceFirstChar]

theorem takeWhile_append_all (l r : List Char) (p : Char → Bool)
    (h : ∀ c ∈ l, p c = true) : (l ++ r).takeWhile p = l ++ r.takeWhile p := by
  induction l with
  | nil => rfl
  | cons c cs ih =>
    have hc := h c (List.mem_cons_self c cs)
    have ih2 := ih (fun x hx => h x (List.mem_cons_of_mem _ hx))
    simp [List.takeWhile_cons, hc, ih2]

theorem takeWhile_cons_true (c : Char) (r : List Char) (p : Char → Bool) (h : p c = true) :
    (c :: r).takeWhile p = c :: r.takeWhile p := by
  simp [List.takeWhile_cons, h]

theorem takeWhile_dot (r : List Char) :
    ('.' :: r).takeWhile (fun c => c != '.') = [] := by
  simp [List.takeWhile_cons]

/-- The two regex replacements turn the ISO timestamp into exactly the
gateway format: the date part, a space, and the time down to whole seconds,
with the fractional part and the Z removed. -/
theorem qfTimestamp_eq (d : DateTimeUTC) : qfTimestamp d = specTimestamp d := by
  apply stringDataInj
  show dropFromDot (replaceFirstChar (isoChars d) 'T' ' ')
      = pad4c d.year ++ '-' :: pad2c d.month ++ '-' :: pad2c d.day
          ++ ' ' :: pad2c d.hour ++ ':' :: pad2c d.minute ++ ':' :: pad2c d.second
  unfold isoChars dropFromDot
  simp only [List.append_assoc, List.cons_append]
  rw [replaceFirstChar_append_not_mem _ _ _ _ (T_not_mem_pad4c _),
      replaceFirstChar_cons_ne _ _ _ _ (by decide),
      replaceFirstChar_append_not_mem _ _ _ _ (T_not_mem_pad2c _),
      replaceFirstChar_cons_ne _ _ _ _ (by decide),
      replaceFirstChar_append_not_mem _ _ _ _ (T_not_mem_pad2c _),
      replaceFirstChar_cons_self]
  rw [takeWhile_append_all _ _ _ (pad4c_bne_dot _),
      takeWhile_cons_true _ _ _ (by decide),
      takeWhile_append_all _ _ _ (pad2c_bne_dot _),
      takeWhile_cons_true _ _ _ (by decide),
      takeWhile_append_all _ _ _ (pad2c_bne_dot _),
      takeWhile_cons_true _ _ _ (by decide),
      takeWhile_append_all _ _ _ (pad2c_bne_dot _),
      takeWhile_cons_true _ _ _ (by decide),
      takeWhile_append_all _ _ _ (pad2c_bne_dot _),
      takeWhile_cons_true _ _ _ (by decide),
      takeWhile_append_all _ _ _ (pad2c_bne_dot _),
      takeWhile_dot]
  simp [List.append_assoc, List.cons_append, List.append_nil]

/- ## Claim C6 -/

/-- C6: a payment-intent creation with amount 500, currency HKD, no
customer id and no expiry signs exactly the five keys txamt (value 500),
txcurrcd (value HKD), pay_type (value 802801), out_trade_no (the generated
trade number) and txdtm, where txdtm is the UTC clock reading rendered as
YYYY-MM-DD HH:MM:SS with a space separator and no fractional seconds (19
characters); no customer_id or intent_expiry key is present. -/
theorem C6_payment_intent_params (outTradeNo : String) (now : DateTimeUTC) :
    createPaymentIntentParams 500 "HKD" none none outTradeNo now
      = [("txamt", "500"), ("txcurrcd", "HKD"), ("pay_type", "802801"),
         ("out_trade_no", outTradeNo), ("txdtm", specTimestamp now)]
    ∧ ((createPaymentIntentParams 500 "HKD" none none outTradeNo now).map Prod.fst
        = ["txamt", "txcurrcd", "pay_type", "out_trade_no", "txdtm"])
    ∧ "customer_id" ∉ (createPaymentIntentParams 500 "HKD" none none outTradeNo now).map Prod.fst
    ∧ "intent_expiry" ∉ (createPaymentIntentParams 500 "HKD" none none outTradeNo now).map Prod.fst
    ∧ (specTimestamp now).length = 19 := by
  have h1 : createPaymentIntentParams 500 "HKD" none none outTradeNo now
      = [("txamt", natStr 500), ("txcurrcd", "HKD"), ("pay_type", "802801"),
         ("out_trade_no", outTradeNo), ("txdtm", qfTimestamp now)] := rfl
  have h500 : natStr 500 = "500" := by decide
  refine ⟨?_, ?_, ?_, ?_, ?_⟩
  · rw [h1, h500, qfTimestamp_eq]
  · rw [h1]
    rfl
  · rw [h1]
    show "customer_id" ∉ ["txamt", "txcurrcd", "pay_type", "out_trade_no", "txdtm"]
    decide
  · rw [h1]
    show "intent_expiry" ∉ ["txamt", "txcurrcd", "pay_type", "out_trade_no", "txdtm"]
    decide
  · show (pad4c now.year ++ '-' :: pad2c now.month ++ '-' :: pad2c now.day
      ++ ' ' :: pad2c now.hour ++ ':' :: pad2c now.minute
      ++ ':' :: pad2c now.second).length = 19
    simp [pad4c, pad2c]

/- ## Claim C8 -/

/-- C8: the customer-create parameter set always carries exactly the keys
name, phone and email; a field missing from the caller data lands as its
demo default: Demo Customer for name, the empty string for phone,
demo@example.com for email. With all three absent, the canonical string the
signer sees is the fully defaulted rendering. -/
theorem C8_customer_defaults (d : CustomerData) :
    ((createCustomerParams d).map Prod.fst = ["name", "phone", "email"])
    ∧ (d.name = none → lookupValue (createCustomerParams d) "name" = "Demo Customer")
    ∧ (d.phone = none → lookupValue (createCustomerParams d) "phone" = "")
    ∧ (d.email = none → lookupValue (createCustomerParams d) "email" = "demo@example.com")
    ∧ canonicalize (createCustomerParams ⟨none, none, none⟩)
        = "email=demo@example.com&name=Demo Customer&phone=" := by
  obtain ⟨n, p, e⟩ := d
  refine ⟨rfl, ?_, ?_, ?_, by decide⟩
  · intro h
    subst h
    rfl
  · intro h
    subst h
    rfl
  · intro h
    subst h
    rfl

/-- Witness for C8: all three fields absent. -/
theorem C8_customer_defaults_witness :
    ((createCustomerParams ⟨none, none, none⟩).map Prod.fst = ["name", "phone", "email"])
    ∧ lookupValue (createCustomerParams ⟨none, none, none⟩) "name" = "Demo Customer"
    ∧ lookupValue (createCustomerParams ⟨none, none, none⟩) "phone" = ""
    ∧ lookupValue (createCustomerParams ⟨none, none, none⟩) "email" = "demo@example.com" :=
  ⟨(C8_customer_defaults ⟨none, none, none⟩).1,
   (C8_customer_defaults ⟨none, none, none⟩).2.1 rfl,
   (C8_customer_defaults ⟨none, none, none⟩).2.2.1 rfl,
   (C8_customer_defaults ⟨none, none, none⟩).2.2.2.1 rfl⟩

/- ## Claim C4 -/

/-- C4: any non-2xx HTTP status maps to the transport failure carrying the
status, whatever the body holds; a 2xx status with a gateway respcd other
than 0000 maps to the application failure carrying that code and the
gateway message; HTTP 200 with respcd 0000 maps to success with the
populated normalized payment intent. A 2xx status alone never implies
success. -/
theorem C4_response_mapping (status : Nat) (statusText : String) (body : GatewayBody)
    (currency : String) :
    (¬ (200 ≤ status ∧ status ≤ 299) →
       mapPaymentIntentResponse status statusText body currency
         = .transportFailure status statusText)
    ∧ (200 ≤ status ∧ status ≤ 299 → body.respcd ≠ "0000" →
       mapPaymentIntentResponse status statusText body currency
         = .applicationFailure body.respcd (jsOrStr body.respmsg "Unknown error"))
    ∧ (status = 200 → body.respcd = "0000" →
       mapPaymentIntentResponse status statusText body currency
         = .success { payment_intent_id := body.payment_intent
                      out_trade_no := body.out_trade_no
                      txamt := body.txamt
                      currency := jsOrStr body.txcurrcd currency
                      status := "requires_payment_method"
                      created_at := body.sysdtm
                      expires_at := body.intent_expiry
                      respcd := body.respcd }) := by
  refine ⟨?_, ?_, ?_⟩
  · intro h
    unfold mapPaymentIntentResponse
    rw [if_pos h]
  · intro h1 h2
    unfold mapPaymentIntentResponse
    rw [if_neg (not_not_intro h1), if_pos h2]
  · intro h1 h2
    subst h1
    unfold mapPaymentIntentResponse
    rw [if_neg (not_not_intro ⟨by omega, by omega⟩), if_neg (not_not_intro h2)]

/-- Witness for C4: an HTTP 500 with a success body still fails as
transport; HTTP 200 with respcd 1001 fails as application error 1001 with
the gateway message; HTTP 200 with respcd 0000 succeeds with the populated
result. -/
theorem C4_response_mapping_witness :
    mapPaymentIntentResponse 500 "Internal Server Error"
        ⟨"0000", none, none, none, none, none, none, none⟩ "HKD"
      = .transportFailure 500 "Internal Server Error"
    ∧ mapPaymentIntentResponse 200 "OK"
        ⟨"1001", some "auth failed", none, none, none, none, none, none⟩ "HKD"
      = .applicationFailure "1001" "auth failed"
    ∧ mapPaymentIntentResponse 200 "OK"
        ⟨"0000", none, some "pi_1", some "QF_1", some "500", some "HKD",
         some "2025-01-01 00:00:00", some "2026-12-31 00:00:00"⟩ "HKD"
      = .success ⟨some "pi_1", some "QF_1", some "500", "HKD", "requires_payment_method",
                  some "2025-01-01 00:00:00", some "2026-12-31 00:00:00", "0000"⟩ :=
  ⟨(C4_response_mapping 500 "Internal Server Error"
      ⟨"0000", none, none, none, none, none, none, none⟩ "HKD").1 (by omega),
   (C4_response_mapping 200 "OK"
      ⟨"1001", some "auth failed", none, none, none, none, none, none⟩ "HKD").2.1
      (by omega) (by decide),
   (C4_response_mapping 200 "OK"
      ⟨"0000", none, some "pi_1", some "QF_1", some "500", some "HKD",
       some "2025-01-01 00:00:00", some "2026-12-31 00:00:00"⟩ "HKD").2.2 rfl rfl⟩

/- ## Claim C5 -/

/-- The HTTP status of an early rejection; none when the handler reached
the gateway call. -/
def RouteStep.rejectStatus {α : Type} : RouteStep α → Option Nat
  | .reject s _ => some s
  | .callGateway _ => none

/-- C5: a subscription-create body whose products field is the empty array,
or is not an array at all, or is an array containing an object entry whose
product_id is falsy or whose quantity is not a number, is rejected with a
400 validation response before the handler ever reaches the gateway call. -/
theorem C5_subscription_validation (customer_id token_id products appcode : Option JsValue)
    (h : products = some (.arr [])
         ∨ (∀ l, products ≠ some (.arr l))
         ∨ (∃ l p, products = some (.arr l) ∧ p ∈ l
             ∧ (∃ fs, p = .obj fs)
             ∧ (truthy (jsGetProp p "product_id") = false
                ∨ isJsNumber (jsGetProp p "quantity") = false))) :
    (subscriptionCreatePost customer_id token_id products appcode).rejectStatus = some 400 := by
  unfold subscriptionCreatePost
  by_cases h0 : (truthy customer_id && truthy token_id && truthy products && truthy appcode) = true
  case neg =>
    rw [if_pos h0]
    rfl
  case pos =>
    rw [if_neg (not_not_intro h0)]
    have hp : truthy products = true := by
      simp only [Bool.and_eq_true] at h0
      exact h0.1.2
    rcases h with h | h | h
    · subst h
      rfl
    · cases products with
      | none => simp [truthy] at hp
      | some v =>
        cases v with
        | null => simp [truthy] at hp
        | bool b =>
          cases b with
          | false => simp [truthy] at hp
          | true => rfl
        | num n => rfl
        | str s => rfl
        | arr l => exact absurd rfl (h l)
        | obj fs => rfl
    · obtain ⟨l, q, hl, hq, ⟨fs, hobj⟩, hbad⟩ := h
      subst hl
      show (if l.length = 0 then
              (RouteStep.reject 400 "Products must be a non-empty array"
                : RouteStep (Option JsValue × Option JsValue × Option JsValue × Option JsValue))
            else if l.all (fun p => truthy (jsGetProp p "product_id")
                                     && isJsNumber (jsGetProp p "quantity")) then
              RouteStep.callGateway (customer_id, token_id, some (.arr l), appcode)
            else
              RouteStep.reject 400
                "Each product must have product_id (string) and quantity (number)").rejectStatus
          = some 400
      have hlen : ¬ l.length = 0 := by
        cases l with
        | nil => cases hq
        | cons a as => simp
      rw [if_neg hlen]
      have hall : l.all (fun p => truthy (jsGetProp p "product_id")
                                   && isJsNumber (jsGetProp p "quantity")) = false := by
        cases hx : l.all (fun p => truthy (jsGetProp p "product_id")
                                    && isJsNumber (jsGetProp p "quantity")) with
        | false => rfl
        | true =>
          have hgood := List.all_eq_true.mp hx q hq
          rw [Bool.and_eq_true] at hgood
          rcases hbad with hb | hb
          · rw [hgood.1] at hb
            exact Bool.noConfusion hb
          · rw [hgood.2] at hb
            exact Bool.noConfusion hb
      rw [if_neg (by simp [hall])]
      rfl

/-- Witness for C5: an empty products array with all other fields present
is rejected with the 400 non-empty-array validation error. -/
theorem C5_subscription_validation_witness :
    (subscriptionCreatePost (some (.str "cust_1")) (some (.str "tk_1")) (some (.arr []))
        (some (.str "APP"))).rejectStatus = some 400
    ∧ subscriptionCreatePost (some (.str "cust_1")) (some (.str "tk_1")) (some (.arr []))
        (some (.str "APP"))
      = .reject 400 "Products must be a non-empty array" :=
  ⟨C5_subscription_validation (some (.str "cust_1")) (some (.str "tk_1")) (some (.arr []))
      (some (.str "APP")) (Or.inl rfl), rfl⟩

/- ## Claim C10 -/

/-- C10: the product-create endpoint rejects with the Missing required
fields validation error whenever any of name, txamt, txcurrcd, appcode is
falsy, before any network call; the falsy values include the number 0 (an
explicitly supplied zero amount), the empty string, null and an absent
field. -/
theorem C10_product_falsy_validation (name txamt txcurrcd appcode : Option JsValue) :
    (truthy txamt = false → productCreatePost name txamt txcurrcd appcode
        = .reject 400 "Missing required fields: name, txamt, txcurrcd, appcode")
    ∧ (truthy name = false → productCreatePost name txamt txcurrcd appcode
        = .reject 400 "Missing required fields: name, txamt, txcurrcd, appcode")
    ∧ (truthy txcurrcd = false → productCreatePost name txamt txcurrcd appcode
        = .reject 400 "Missing required fields: name, txamt, txcurrcd, appcode")
    ∧ (truthy appcode = false → productCreatePost name txamt txcurrcd appcode
        = .reject 400 "Missing required fields: name, txamt, txcurrcd, appcode")
    ∧ truthy (some (.num 0)) = false
    ∧ truthy (some (.str "")) = false
    ∧ truthy (some .null) = false
    ∧ truthy none = false := by
  refine ⟨?_, ?_, ?_, ?_, by decide, by decide, by decide, by decide⟩ <;>
    · intro h
      unfold productCreatePost
      rw [if_pos (by simp [h])]

/-- Witness for C10: an explicit zero amount with the other three fields
present is still rejected as missing. -/
theorem C10_product_falsy_validation_witness :
    truthy (some (.num 0)) = false
    ∧ productCreatePost (some (.str "Plan")) (some (.num 0)) (some (.str "HKD"))
        (some (.str "APP"))
      = .reject 400 "Missing required fields: name, txamt, txcurrcd, appcode" :=
  ⟨by decide,
   (C10_product_falsy_validation (some (.str "Plan")) (some (.num 0)) (some (.str "HKD"))
      (some (.str "APP"))).1 (by decide)⟩
